import Mathlib

/-!
Verification of the authentication core of the CodInspect repository
(validators, error mapper, auth service, session-guard middleware).

Strings are modelled as `List Char`; JavaScript string operations
(`trim`, `includes`, regex replacement with the `g`/`i` flags) are
embedded as executable Lean functions that follow the ECMAScript
semantics of the concrete patterns appearing in the source.
-/

namespace CodInspect

/-- JS whitespace (the `\s` class and the set removed by `String.prototype.trim`):
space, tab, LF, VT, FF, CR, NBSP, and the Unicode space separators. -/
def isJSSpace (c : Char) : Bool :=
  c = ' ' || c = '\t' || c = '\n' || c.val = 11 || c.val = 12 || c = '\r' ||
  c.val = 0xa0 || c.val = 0x1680 || (0x2000 ≤ c.val && c.val ≤ 0x200a) ||
  c.val = 0x2028 || c.val = 0x2029 || c.val = 0x202f || c.val = 0x205f ||
  c.val = 0x3000 || c.val = 0xfeff

/-- The regex `\w` class: `[A-Za-z0-9_]`. -/
def isWordChar (c : Char) : Bool :=
  ('A' ≤ c && c ≤ 'Z') || ('a' ≤ c && c ≤ 'z') || ('0' ≤ c && c ≤ '9') || c = '_'

/-- ASCII lowercasing, the canonicalisation used by a non-unicode
case-insensitive regex over an ASCII pattern. -/
def lowerAscii (c : Char) : Char :=
  if 'A' ≤ c && c ≤ 'Z' then Char.ofNat (c.val.toNat + 32) else c

/-- `String.prototype.trim`: drop leading and trailing JS whitespace.
(`List.rdropWhile p l` is `(l.reverse.dropWhile p).reverse`, i.e. dropping
the trailing run.) -/
def jsTrim (l : List Char) : List Char :=
  (l.dropWhile isJSSpace).rdropWhile isJSSpace

/-- Case-insensitive (ASCII) prefix test: `pat` is given lowercase. -/
def ciStarts : List Char → List Char → Bool
  | [], _ => true
  | _ :: _, [] => false
  | p :: ps, c :: cs => p = lowerAscii c && ciStarts ps cs

/-- JS `String.prototype.includes` (case-sensitive substring test). -/
def jsIncludes : List Char → List Char → Bool
  | l, pat =>
    pat.isPrefixOf l ||
      match l with
      | [] => false
      | _ :: t => jsIncludes t pat

/-- The pattern of the `/javascript:/gi` replacement. -/
def jsProtoPat : List Char := "javascript:".data

/-- Fuel-indexed body of the global case-insensitive removal of
`javascript:` — the ECMAScript left-to-right scan of
`input.replace(/javascript:/gi, '')`.  The fuel only serves structural
recursion; it never runs out when it starts at the list length. -/
def stripJsProtoAux : Nat → List Char → List Char
  | 0, l => l
  | _ + 1, [] => []
  | fuel + 1, c :: cs =>
    if ciStarts jsProtoPat (c :: cs) then
      stripJsProtoAux fuel ((c :: cs).drop jsProtoPat.length)
    else
      c :: stripJsProtoAux fuel cs

/-- `input.replace(/javascript:/gi, '')`. -/
def stripJsProto (l : List Char) : List Char :=
  stripJsProtoAux l.length l

/-- One occurrence of `javascript:` somewhere in the list (the scan of the
global replacement finds a match at some position). -/
def hasJsProto : List Char → Bool
  | [] => false
  | c :: cs => ciStarts jsProtoPat (c :: cs) || hasJsProto cs

/-- `\s*=` — skip whitespace greedily, then require `=`; returns the number
of characters consumed. -/
def scanEqLen : List Char → Option Nat
  | [] => none
  | c :: cs =>
    if c = '=' then some 1
    else if isJSSpace c then (scanEqLen cs).map (· + 1)
    else none

/-- `\w*\s*=` — continue the word run greedily, then `\s*=`. -/
def scanWordEqLen : List Char → Option Nat
  | [] => none
  | c :: cs =>
    if isWordChar c then (scanWordEqLen cs).map (· + 1)
    else scanEqLen (c :: cs)

/-- A match of `/on\w+\s*=/i` anchored at the head of the list, returning the
match length.  (Since `\w`, `\s` and `=` are pairwise disjoint, the greedy
match is deterministic: maximal word run, maximal space run, then `=`.) -/
def onMatchLen : List Char → Option Nat
  | o :: n :: c :: cs =>
    if (o = 'o' || o = 'O') && (n = 'n' || n = 'N') && isWordChar c then
      (scanWordEqLen cs).map (· + 3)
    else none
  | _ => none

/-- Fuel-indexed body of the global removal of `/on\w+\s*=/gi` matches
(event-handler stripping). -/
def stripOnHandlersAux : Nat → List Char → List Char
  | 0, l => l
  | _ + 1, [] => []
  | fuel + 1, c :: cs =>
    match onMatchLen (c :: cs) with
    | some k => stripOnHandlersAux fuel ((c :: cs).drop k)
    | none => c :: stripOnHandlersAux fuel cs

/-- `input.replace(/on\w+\s*=/gi, '')`. -/
def stripOnHandlers (l : List Char) : List Char :=
  stripOnHandlersAux l.length l

/-- A match of the event-handler pattern at some position. -/
def hasOnHandler : List Char → Bool
  | [] => false
  | c :: cs => (onMatchLen (c :: cs)).isSome || hasOnHandler cs

/--
`sanitizeInput` from `src/lib/auth/validators.ts`:

```ts
if (!input) return '';
return input
    .trim()
    .replace(/[<>]/g, '')
    .replace(/javascript:/gi, '')
    .replace(/on\w+\s*=/gi, '');
```

(The `!input` early return coincides with the pipeline on the empty string.)
-/
def sanitizeInput (input : List Char) : List Char :=
  stripOnHandlers (stripJsProto ((jsTrim input).filter (fun c => ¬(c = '<' || c = '>'))))

/-! ## Validators (`src/lib/auth/validators.ts`) -/

/-- `ValidationResult`; the `errors` record is modelled as an association
list in insertion order (all producers use pairwise-distinct field names). -/
structure ValidationResult where
  isValid : Bool
  errors : List (String × String)
deriving DecidableEq

def emailKey : String := "email"
def passwordKey : String := "password"
def confirmPasswordKey : String := "confirmPassword"
def msgEmailRequired : String := "Email is required"
def msgEmailInvalid : String := "Please enter a valid email address"
def msgPasswordRequired : String := "Password is required"
def msgPasswordMustContain : String := "Password must contain "
def fragLength : String := "at least 8 characters"
def fragUppercase : String := "one uppercase letter"
def fragLowercase : String := "one lowercase letter"
def fragNumber : String := "one number"
def fragSpecial : String := "one special character"
def msgPasswordsNoMatch : String := "Passwords do not match"
def commaSep : String := ", "

/-- Interior `'.'` test: the list splits as `A ++ [c] ++ B` with `c = '.'`
and `A`, `B` non-empty, i.e. some `'.'` is at a position that is neither
the first nor the last. -/
def hasInteriorDot : List Char → Bool
  | [] => false
  | [_] => false
  | _ :: c :: cs => (c = '.' && ¬cs.isEmpty) || hasInteriorDot (c :: cs)

/--
The test of the email regex `/^[^\s@]+@[^\s@]+\.[^\s@]+$/`.

A string matches iff it decomposes as `L ++ [at] ++ A ++ [dot] ++ B` with
`L`, `A`, `B` non-empty and free of whitespace and `'@'`.  Since `'@'`
occurs only as the literal, a match forces exactly one `'@'`; splitting
there, the domain part must be whitespace-free and contain a `'.'` that is
neither its first nor its last character (`'.'` itself lies in `[^\s@]`,
so `A` and `B` may contain further dots).
-/
def emailRegexTest (l : List Char) : Bool :=
  match l.splitOn '@' with
  | [lp, domain] =>
    ¬lp.isEmpty && lp.all (fun c => ¬isJSSpace c) &&
    ¬domain.isEmpty && domain.all (fun c => ¬isJSSpace c) &&
    hasInteriorDot domain
  | _ => false

/-- `validateEmail` from `src/lib/auth/validators.ts`. -/
def validateEmail (email : List Char) : ValidationResult :=
  if email.isEmpty || (jsTrim email).isEmpty then
    { isValid := false, errors := [(emailKey, msgEmailRequired)] }
  else if ¬ emailRegexTest email then
    { isValid := false, errors := [(emailKey, msgEmailInvalid)] }
  else
    { isValid := true, errors := [] }

/-- `/[A-Z]/.test(password)` -/
def hasUppercase (p : List Char) : Bool := p.any (fun c => 'A' ≤ c && c ≤ 'Z')

/-- `/[a-z]/.test(password)` -/
def hasLowercase (p : List Char) : Bool := p.any (fun c => 'a' ≤ c && c ≤ 'z')

/-- `/[0-9]/.test(password)` -/
def hasDigit (p : List Char) : Bool := p.any (fun c => '0' ≤ c && c ≤ '9')

/-- The character class of the source regex
`/[!@#$%^&*()_+\-=\[\]{};':"\\|,.<>\/?]/` — note that it contains `':'`
(between the quote characters in the class). -/
def specialChars : List Char :=
  ['!', '@', '#', '$', '%', '^', '&', '*', '(', ')', '_', '+', '-', '=',
   '[', ']', '{', '}', ';', Char.ofNat 39, ':', Char.ofNat 34, '\\', '|',
   ',', '.', '<', '>', '/', '?']

def hasSpecialChar (p : List Char) : Bool := p.any (fun c => specialChars.contains c)

/-- `validatePassword` from `src/lib/auth/validators.ts`: each failing test
appends its fragment (in source order); the source pushes the fragment when
the class test fails. -/
def validatePassword (password : List Char) : ValidationResult :=
  if password.isEmpty || (jsTrim password).isEmpty then
    { isValid := false, errors := [(passwordKey, msgPasswordRequired)] }
  else
    let requirements : List String :=
      (if password.length < 8 then [fragLength] else []) ++
      (if hasUppercase password then [] else [fragUppercase]) ++
      (if hasLowercase password then [] else [fragLowercase]) ++
      (if hasDigit password then [] else [fragNumber]) ++
      (if hasSpecialChar password then [] else [fragSpecial])
    if requirements.isEmpty then
      { isValid := true, errors := [] }
    else
      { isValid := false,
        errors := [(passwordKey, msgPasswordMustContain ++ String.intercalate commaSep requirements)] }

structure SignUpFormData where
  email : List Char
  password : List Char
  confirmPassword : Option (List Char)

structure LoginFormData where
  email : List Char
  password : List Char

structure ResetPasswordFormData where
  email : Option (List Char)
  password : Option (List Char)
  confirmPassword : Option (List Char)

/-- `validateSignUpForm`: sanitize the email (never the password), merge
the error maps, add a `confirmPassword` mismatch error when the field is
supplied; `isValid` is emptiness of the merged map. -/
def validateSignUpForm (data : SignUpFormData) : ValidationResult :=
  let email := sanitizeInput data.email
  let emailValidation := validateEmail email
  let passwordValidation := validatePassword data.password
  let errors :=
    (if emailValidation.isValid then [] else emailValidation.errors) ++
    (if passwordValidation.isValid then [] else passwordValidation.errors) ++
    (match data.confirmPassword with
     | some cp => if data.password ≠ cp then [(confirmPasswordKey, msgPasswordsNoMatch)] else []
     | none => [])
  { isValid := errors.isEmpty, errors := errors }

/-- `validateLoginForm`: sanitize + validate the email; the password is
only checked for non-emptiness. -/
def validateLoginForm (data : LoginFormData) : ValidationResult :=
  let email := sanitizeInput data.email
  let emailValidation := validateEmail email
  let errors :=
    (if emailValidation.isValid then [] else emailValidation.errors) ++
    (if data.password.isEmpty || (jsTrim data.password).isEmpty then
      [(passwordKey, msgPasswordRequired)]
    else [])
  { isValid := errors.isEmpty, errors := errors }

/-- `validateResetPasswordForm`: dual-mode — validates whichever of
`email` / `password` is supplied; confirm-match only when both `password`
and `confirmPassword` are supplied. -/
def validateResetPasswordForm (data : ResetPasswordFormData) : ValidationResult :=
  let errors :=
    (match data.email with
     | some em =>
       let emailValidation := validateEmail (sanitizeInput em)
       if emailValidation.isValid then [] else emailValidation.errors
     | none => []) ++
    (match data.password with
     | some p =>
       let passwordValidation := validatePassword p
       (if passwordValidation.isValid then [] else passwordValidation.errors) ++
       (match data.confirmPassword with
        | some cp => if p ≠ cp then [(confirmPasswordKey, msgPasswordsNoMatch)] else []
        | none => [])
     | none => [])
  { isValid := errors.isEmpty, errors := errors }

/-! ## Error mapper and auth-service reset request (`src/unnamed/part_002`) -/

def patAlreadyRegistered : List Char := "already registered".data
def patAlreadyExists : List Char := "already exists".data
def patInvalidLoginCredentials : List Char := "Invalid login credentials".data
def patInvalidCredentialsCode : List Char := "invalid_credentials".data
def patPasswordCapital : List Char := "Password".data
def patPasswordLower : List Char := "password".data
def patWeak : List Char := "weak".data
def patEmail : List Char := "email".data
def patExpired : List Char := "expired".data
def patSession : List Char := "session".data
def patToken : List Char := "token".data
def patInvalid : List Char := "invalid".data
def patRate : List Char := "rate".data
def patTooMany : List Char := "too many".data
def patNotFound : List Char := "not found".data

def msgEmailExists : String := "An account with this email already exists"
def msgInvalidCredentials : String := "Invalid email or password"
def msgWeakPassword : String := "Password does not meet requirements"
def msgSessionExpired : String := "Your session has expired. Please log in again."
def msgInvalidResetToken : String := "This password reset link is invalid or has expired"
def msgRateLimited : String := "Too many attempts. Please try again later."
def msgServerError : String := "An error occurred. Please try again later."

/-- `mapAuthError` from `src/unnamed/part_002` (the spec's
`mapProviderError`), on the raw provider error text
(`error?.message || ''`).  `includes` is JS case-SENSITIVE substring
containment; the weak-password test looks for capitalised `Password`. -/
def mapAuthError (msg : List Char) : String :=
  if jsIncludes msg patAlreadyRegistered || jsIncludes msg patAlreadyExists then
    msgEmailExists
  else if jsIncludes msg patInvalidLoginCredentials || jsIncludes msg patInvalidCredentialsCode then
    msgInvalidCredentials
  else if jsIncludes msg patPasswordCapital && jsIncludes msg patWeak then
    msgWeakPassword
  else if jsIncludes msg patEmail then
    msgEmailInvalid
  else if jsIncludes msg patExpired || jsIncludes msg patSession then
    msgSessionExpired
  else if jsIncludes msg patToken && (jsIncludes msg patInvalid || jsIncludes msg patExpired) then
    msgInvalidResetToken
  else if jsIncludes msg patRate || jsIncludes msg patTooMany then
    msgRateLimited
  else
    msgServerError

/-- The mapper as the spec sentence words it (refinement comparison
definition, NOT from the source): identical rule chain, but the
weak-password rule reads "password together with weak", i.e. the
lowercase word. -/
def mapProviderErrorSpec (msg : List Char) : String :=
  if jsIncludes msg patAlreadyRegistered || jsIncludes msg patAlreadyExists then
    msgEmailExists
  else if jsIncludes msg patInvalidLoginCredentials || jsIncludes msg patInvalidCredentialsCode then
    msgInvalidCredentials
  else if jsIncludes msg patPasswordLower && jsIncludes msg patWeak then
    msgWeakPassword
  else if jsIncludes msg patEmail then
    msgEmailInvalid
  else if jsIncludes msg patExpired || jsIncludes msg patSession then
    msgSessionExpired
  else if jsIncludes msg patToken && (jsIncludes msg patInvalid || jsIncludes msg patExpired) then
    msgInvalidResetToken
  else if jsIncludes msg patRate || jsIncludes msg patTooMany then
    msgRateLimited
  else
    msgServerError

/-- The mapper as the amended spec sentence words it: as
`mapProviderErrorSpec` but with the weak-password rule reading the
capitalised substring `Password`, matching the source. -/
def mapProviderErrorSpecAmended (msg : List Char) : String :=
  if jsIncludes msg patAlreadyRegistered || jsIncludes msg patAlreadyExists then
    msgEmailExists
  else if jsIncludes msg patInvalidLoginCredentials || jsIncludes msg patInvalidCredentialsCode then
    msgInvalidCredentials
  else if jsIncludes msg patPasswordCapital && jsIncludes msg patWeak then
    msgWeakPassword
  else if jsIncludes msg patEmail then
    msgEmailInvalid
  else if jsIncludes msg patExpired || jsIncludes msg patSession then
    msgSessionExpired
  else if jsIncludes msg patToken && (jsIncludes msg patInvalid || jsIncludes msg patExpired) then
    msgInvalidResetToken
  else if jsIncludes msg patRate || jsIncludes msg patTooMany then
    msgRateLimited
  else
    msgServerError

/-- The eight user-facing messages of the mapper. -/
def mapperMessages : List String :=
  [msgEmailExists, msgInvalidCredentials, msgWeakPassword, msgEmailInvalid,
   msgSessionExpired, msgInvalidResetToken, msgRateLimited, msgServerError]

/-- Outcome of the provider's `resetPasswordForEmail` call: a clean
return, a returned error object (with its message text), or a thrown
exception (caught by the source's `try`/`catch`). -/
inductive ResetEmailOutcome where
  | ok : ResetEmailOutcome
  | err (msg : List Char) : ResetEmailOutcome
  | exn (msg : List Char) : ResetEmailOutcome

/-- `resetPasswordRequest` from `src/unnamed/part_002`, as a function of
the provider call's outcome; the result is the optional `error` field of
the returned object:

```ts
const { error } = await supabase.auth.resetPasswordForEmail(email, ...);
if (error && !error.message.includes('not found')) {
    return { error: mapAuthError(error) };
}
return {};
// catch: return {};
```
-/
def resetPasswordRequest (outcome : ResetEmailOutcome) : Option String :=
  match outcome with
  | ResetEmailOutcome.ok => none
  | ResetEmailOutcome.err msg =>
    if ¬ jsIncludes msg patNotFound then some (mapAuthError msg) else none
  | ResetEmailOutcome.exn _ => none

/-! ## Session guard (`src/unnamed/part_003`, `updateSession`) -/

/-- A cookie mutation requested through the provider's `setAll` callback
(name/value pair; options do not affect the guard's logic). -/
structure Cookie where
  name : String
  value : String
deriving DecidableEq

/-- Outcome of `supabase.auth.getUser()`: a clean return with
`data.user` (possibly `null`), a returned error object (in which case
`data.user` is `null`), or a thrown exception (caught by the source's
`try`/`catch`). -/
inductive GetUserOutcome where
  | ok (user : Option String) : GetUserOutcome
  | err (msg : List Char) : GetUserOutcome
  | exn (msg : List Char) : GetUserOutcome

/-- The identity provider's observable behaviour during the guard's
single `getUser` call: the cookie mutations it requests via the
`setAll` cookie callback, and the lookup outcome. -/
structure ProviderBehavior where
  cookiesToSet : List Cookie
  outcome : GetUserOutcome

structure GuardRequest where
  pathname : String

inductive ResponseKind where
  | next : ResponseKind
  | redirect (pathname : String) : ResponseKind
deriving DecidableEq

/-- The response the guard returns: its kind (pass-through
`NextResponse.next` or `NextResponse.redirect` with the rewritten
pathname) and the cookies set on it. -/
structure GuardResponse where
  kind : ResponseKind
  cookies : List Cookie
deriving DecidableEq

/-- The environment configuration read by the guard. `none` models an
unset variable; the source treats unset, empty (JS falsiness) and the
placeholder URL as unconfigured. -/
structure GuardEnv where
  supabaseUrl : Option String
  supabaseKey : Option String

def placeholderUrl : String := "your_supabase_project_url"
def loginPath : String := "/login"
def signupPath : String := "/signup"
def forgotPasswordPath : String := "/forgot-password"
def resetPasswordPath : String := "/reset-password"
def dashboardPath : String := "/dashboard"

/-- `!supabaseUrl || !supabaseKey || supabaseUrl === 'your_supabase_project_url'`,
negated. -/
def isConfigured (env : GuardEnv) : Bool :=
  match env.supabaseUrl, env.supabaseKey with
  | some u, some k => ¬u.isEmpty && ¬k.isEmpty && ¬(u = placeholderUrl)
  | _, _ => false

def protectedRoutes : List String := [dashboardPath]

def authRoutes : List String :=
  [loginPath, signupPath, forgotPasswordPath, resetPasswordPath]

/-- `pathname.startsWith(route)`. -/
def pathStartsWith (pathname route : String) : Bool :=
  route.data.isPrefixOf pathname.data

def isProtectedPath (pathname : String) : Bool :=
  protectedRoutes.any (fun route => pathStartsWith pathname route)

def isAuthPath (pathname : String) : Bool :=
  authRoutes.any (fun route => pathStartsWith pathname route)

/-- The user the guard resolves from the `getUser` outcome: `data.user`
on a clean return (`null` when the provider reported an error), and
`null` when the call threw (the `catch` branch leaves `user = null`). -/
def resolvedUser (provider : ProviderBehavior) : Option String :=
  match provider.outcome with
  | GetUserOutcome.ok u => u
  | GetUserOutcome.err _ => none
  | GetUserOutcome.exn _ => none

/--
`updateSession` from `src/unnamed/part_003`.

* Unconfigured provider: redirect protected paths to `/login` (a fresh
  redirect response), pass everything else through.
* Configured: `supabaseResponse` is the pass-through response carrying
  exactly the cookie mutations the provider requested via `setAll`
  during `getUser`; the user degrades to `null` on a returned error
  (`data.user` is `null`) and on a thrown exception (`catch`).  Both
  redirect branches build a fresh `NextResponse.redirect(url)` — with no
  cookies copied from `supabaseResponse` — and only the fall-through
  branch returns `supabaseResponse` itself.
-/
def updateSession (env : GuardEnv) (req : GuardRequest) (provider : ProviderBehavior) :
    GuardResponse :=
  if ¬ isConfigured env then
    if isProtectedPath req.pathname then
      { kind := ResponseKind.redirect loginPath, cookies := [] }
    else
      { kind := ResponseKind.next, cookies := [] }
  else
    let supabaseResponse : GuardResponse :=
      { kind := ResponseKind.next, cookies := provider.cookiesToSet }
    let user : Option String := resolvedUser provider
    if isProtectedPath req.pathname && user.isNone then
      { kind := ResponseKind.redirect loginPath, cookies := [] }
    else if isAuthPath req.pathname && user.isSome then
      { kind := ResponseKind.redirect dashboardPath, cookies := [] }
    else
      supabaseResponse

/-! ## Spec-side comparison definitions and concrete inputs -/

/-- The special-character set exactly as the spec sentence lists it
(`! @ # $ % ^ & * ( ) _ + - = [ ] { } ; ' " \ | , . < > / ?`) — it
omits the `':'` that the source regex class contains. -/
def specialCharsClaim : List Char :=
  ['!', '@', '#', '$', '%', '^', '&', '*', '(', ')', '_', '+', '-', '=',
   '[', ']', '{', '}', ';', Char.ofNat 39, Char.ofNat 34, '\\', '|',
   ',', '.', '<', '>', '/', '?']

def hasSpecialCharClaim (p : List Char) : Bool :=
  p.any (fun c => specialCharsClaim.contains c)

/-- The `ValidationResult` invariant stated by the spec. -/
def validationInvariant (r : ValidationResult) : Prop :=
  r.isValid = r.errors.isEmpty

def sampleUrl : String := "https://example.supabase.co"
def sampleKey : String := "anon-key"

/-- A configured environment (non-empty, non-placeholder credentials). -/
def envConfigured : GuardEnv := { supabaseUrl := some sampleUrl, supabaseKey := some sampleKey }

/-- An unconfigured environment (URL variable unset). -/
def envUnconfigured : GuardEnv := { supabaseUrl := none, supabaseKey := some sampleKey }

def sbCookieName : String := "sb-access-token"
def sbCookieValue : String := "rotated"
def sampleUserId : String := "user-1"
def rootPath : String := "/"

/-- Provider behaviour that requests one cookie mutation during lookup
and resolves no user. -/
def providerMutatesNoUser : ProviderBehavior :=
  { cookiesToSet := [{ name := sbCookieName, value := sbCookieValue }],
    outcome := GetUserOutcome.ok none }

/-- Provider behaviour that requests one cookie mutation during lookup
and resolves a user. -/
def providerMutatesWithUser : ProviderBehavior :=
  { cookiesToSet := [{ name := sbCookieName, value := sbCookieValue }],
    outcome := GetUserOutcome.ok (some sampleUserId) }

/-- Concrete inputs used by counterexamples and witnesses. -/
def cexWeakPassword : List Char := "weak password".data
def cexColonPassword : List Char := "Abcdef1:".data
def cexAngleSpace : List Char := "< a".data
def witnessSanitizeInput : List Char := "hello world".data
def cexNotFoundMsg : List Char := "User not found".data
def cexTransportMsg : List Char := "fetch failed".data

/-- `sanitizeInput cexAngleSpace`: removing `'<'` exposes a leading
space which the first pass has already stopped trimming. -/
def cexAngleSpaceOnce : List Char := " a".data

/-- `sanitizeInput (sanitizeInput cexAngleSpace)`: the second pass trims
the exposed space. -/
def cexAngleSpaceTwice : List Char := "a".data

/-! ## Sanitizer lemmas and theorems -/

theorem ciStarts_append (pt l r : List Char) (h : ciStarts pt l = true) :
    ciStarts pt (l ++ r) = true := by
  induction pt generalizing l with
  | nil => rfl
  | cons p ps ih =>
    cases l with
    | nil => simp [ciStarts] at h
    | cons c cs =>
      simp only [List.cons_append, ciStarts, Bool.and_eq_true] at h ⊢
      exact ⟨h.1, ih cs h.2⟩

theorem hasJsProto_append_right (l r : List Char) (h : hasJsProto l = true) :
    hasJsProto (l ++ r) = true := by
  induction l with
  | nil => simp [hasJsProto] at h
  | cons c cs ih =>
    simp only [List.cons_append, hasJsProto, Bool.or_eq_true] at h ⊢
    rcases h with h | h
    · exact Or.inl (ciStarts_append jsProtoPat (c :: cs) r h)
    · exact Or.inr (ih h)

theorem hasJsProto_append_left (l r : List Char) (h : hasJsProto r = true) :
    hasJsProto (l ++ r) = true := by
  induction l with
  | nil => exact h
  | cons c cs ih =>
    simp only [List.cons_append, hasJsProto, Bool.or_eq_true]
    exact Or.inr ih

theorem hasJsProto_infix_mono {m l : List Char} (hml : m <:+: l) (h : hasJsProto m = true) :
    hasJsProto l = true := by
  rcases hml with ⟨s, t, rfl⟩
  rw [List.append_assoc]
  exact hasJsProto_append_left s (m ++ t) (hasJsProto_append_right m t h)

theorem hasJsProto_infix_free {m l : List Char} (hml : m <:+: l)
    (h : hasJsProto l = false) : hasJsProto m = false := by
  cases hm : hasJsProto m with
  | false => rfl
  | true => rw [hasJsProto_infix_mono hml hm] at h; simp at h

theorem scanEqLen_append (l r : List Char) (k : Nat) (h : scanEqLen l = some k) :
    scanEqLen (l ++ r) = some k := by
  induction l generalizing k with
  | nil => simp [scanEqLen] at h
  | cons c cs ih =>
    simp only [List.cons_append, scanEqLen, List.append_eq] at h ⊢
    by_cases hc : c = '='
    · rw [if_pos hc] at h ⊢; exact h
    · rw [if_neg hc] at h ⊢
      by_cases hs : isJSSpace c = true
      · rw [if_pos hs] at h ⊢
        rcases Option.map_eq_some'.mp h with ⟨j, hj, rfl⟩
        rw [ih j hj]; rfl
      · rw [if_neg hs] at h; exact absurd h (by simp)

theorem scanWordEqLen_append (l r : List Char) (k : Nat) (h : scanWordEqLen l = some k) :
    scanWordEqLen (l ++ r) = some k := by
  induction l generalizing k with
  | nil => simp [scanWordEqLen] at h
  | cons c cs ih =>
    simp only [List.cons_append, scanWordEqLen, List.append_eq] at h ⊢
    by_cases hw : isWordChar c = true
    · rw [if_pos hw] at h ⊢
      rcases Option.map_eq_some'.mp h with ⟨j, hj, rfl⟩
      rw [ih j hj]; rfl
    · rw [if_neg hw] at h ⊢
      exact scanEqLen_append (c :: cs) r k h

theorem onMatchLen_append (l r : List Char) (k : Nat) (h : onMatchLen l = some k) :
    onMatchLen (l ++ r) = some k := by
  match l with
  | [] => simp [onMatchLen] at h
  | [_] => simp [onMatchLen] at h
  | [_, _] => simp [onMatchLen] at h
  | o :: n :: c :: cs =>
    simp only [List.cons_append, onMatchLen, List.append_eq] at h ⊢
    by_cases hg : ((o = 'o' || o = 'O') && (n = 'n' || n = 'N') && isWordChar c) = true
    · rw [if_pos hg] at h ⊢
      rcases Option.map_eq_some'.mp h with ⟨j, hj, rfl⟩
      rw [scanWordEqLen_append cs r j hj]; rfl
    · rw [if_neg hg] at h; exact absurd h (by simp)

theorem hasOnHandler_append_right (l r : List Char) (h : hasOnHandler l = true) :
    hasOnHandler (l ++ r) = true := by
  induction l with
  | nil => simp [hasOnHandler] at h
  | cons c cs ih =>
    simp only [List.cons_append, hasOnHandler, Bool.or_eq_true] at h ⊢
    rcases h with h | h
    · rcases Option.isSome_iff_exists.mp h with ⟨k, hk⟩
      exact Or.inl (Option.isSome_iff_exists.mpr ⟨k, onMatchLen_append (c :: cs) r k hk⟩)
    · exact Or.inr (ih h)

theorem hasOnHandler_append_left (l r : List Char) (h : hasOnHandler r = true) :
    hasOnHandler (l ++ r) = true := by
  induction l with
  | nil => exact h
  | cons c cs ih =>
    simp only [List.cons_append, hasOnHandler, Bool.or_eq_true]
    exact Or.inr ih

theorem hasOnHandler_infix_mono {m l : List Char} (hml : m <:+: l)
    (h : hasOnHandler m = true) : hasOnHandler l = true := by
  rcases hml with ⟨s, t, rfl⟩
  rw [List.append_assoc]
  exact hasOnHandler_append_left s (m ++ t) (hasOnHandler_append_right m t h)

theorem hasOnHandler_infix_free {m l : List Char} (hml : m <:+: l)
    (h : hasOnHandler l = false) : hasOnHandler m = false := by
  cases hm : hasOnHandler m with
  | false => rfl
  | true => rw [hasOnHandler_infix_mono hml hm] at h; simp at h

theorem stripJsProtoAux_id (fuel : Nat) (l : List Char) (h : hasJsProto l = false) :
    stripJsProtoAux fuel l = l := by
  induction fuel generalizing l with
  | zero => rfl
  | succ n ih =>
    cases l with
    | nil => rfl
    | cons c cs =>
      simp only [hasJsProto, Bool.or_eq_false_iff] at h
      simp [stripJsProtoAux, h.1, ih cs h.2]

theorem stripJsProto_id (l : List Char) (h : hasJsProto l = false) :
    stripJsProto l = l :=
  stripJsProtoAux_id l.length l h

theorem stripOnHandlersAux_id (fuel : Nat) (l : List Char) (h : hasOnHandler l = false) :
    stripOnHandlersAux fuel l = l := by
  induction fuel generalizing l with
  | zero => rfl
  | succ n ih =>
    cases l with
    | nil => rfl
    | cons c cs =>
      simp only [hasOnHandler, Bool.or_eq_false_iff] at h
      obtain ⟨h1, h2⟩ := h
      cases hm : onMatchLen (c :: cs) with
      | some k => rw [hm] at h1; simp at h1
      | none => simp [stripOnHandlersAux, hm, ih cs h2]

theorem stripOnHandlers_id (l : List Char) (h : hasOnHandler l = false) :
    stripOnHandlers l = l :=
  stripOnHandlersAux_id l.length l h

theorem jsTrim_infix_self (l : List Char) : jsTrim l <:+: l := by
  unfold jsTrim
  exact (List.rdropWhile_prefix _ _).isInfix.trans (List.dropWhile_suffix _).isInfix

theorem jsTrim_idem (l : List Char) : jsTrim (jsTrim l) = jsTrim l := by
  unfold jsTrim
  have h1 : List.dropWhile isJSSpace ((List.dropWhile isJSSpace l).rdropWhile isJSSpace) =
      (List.dropWhile isJSSpace l).rdropWhile isJSSpace := by
    apply List.dropWhile_eq_self_iff.mpr
    intro hl
    have hpre : (List.dropWhile isJSSpace l).rdropWhile isJSSpace <+:
        List.dropWhile isJSSpace l := List.rdropWhile_prefix _ _
    have hlen : 0 < (List.dropWhile isJSSpace l).length := lt_of_lt_of_le hl hpre.length_le
    have hget : ((List.dropWhile isJSSpace l).rdropWhile isJSSpace).get ⟨0, hl⟩ =
        (List.dropWhile isJSSpace l).get ⟨0, hlen⟩ := by
      simp only [List.get_eq_getElem]
      exact hpre.getElem hl
    rw [hget]
    exact List.dropWhile_get_zero_not isJSSpace l hlen
  rw [h1, List.rdropWhile_idempotent]

/-- C3 counterexample: sanitization is not idempotent — on `"< a"` the
first pass removes the `'<'` and leaves the exposed leading space (the
trim step ran before the removals), and a second pass removes it. -/
theorem C3_sanitize_not_idempotent :
    sanitizeInput cexAngleSpace = cexAngleSpaceOnce ∧
    sanitizeInput cexAngleSpaceOnce = cexAngleSpaceTwice ∧
    sanitizeInput (sanitizeInput cexAngleSpace) ≠ sanitizeInput cexAngleSpace := by
  refine ⟨rfl, rfl, ?_⟩
  decide

/-- C3 (amended): sanitization is idempotent on every input that contains
no `'<'` or `'>'` character, no case-insensitive `javascript:` substring
and no `on<word>=` event-handler pattern; on such an input it reduces to
trimming, and trimming is idempotent.  (In general a second pass can
strip further, because a removal can expose leading/trailing whitespace
or splice together a new removable substring.) -/
theorem C3_sanitize_idempotent_on_clean (x : List Char)
    (hangle : x.all (fun c => ¬(c = '<' || c = '>')) = true)
    (hjs : hasJsProto x = false) (hon : hasOnHandler x = false) :
    sanitizeInput (sanitizeInput x) = sanitizeInput x := by
  have htrim : jsTrim x <:+: x := jsTrim_infix_self x
  have hangle' : List.filter (fun c => ¬(c = '<' || c = '>')) (jsTrim x) = jsTrim x := by
    apply List.filter_eq_self.mpr
    intro a ha
    exact List.all_eq_true.mp hangle a (htrim.subset ha)
  have hjs' : hasJsProto (jsTrim x) = false := hasJsProto_infix_free htrim hjs
  have hon' : hasOnHandler (jsTrim x) = false := hasOnHandler_infix_free htrim hon
  have hs1 : sanitizeInput x = jsTrim x := by
    unfold sanitizeInput
    rw [hangle', stripJsProto_id _ hjs', stripOnHandlers_id _ hon']
  rw [hs1]
  unfold sanitizeInput
  rw [jsTrim_idem, hangle', stripJsProto_id _ hjs', stripOnHandlers_id _ hon']

/-- C3 witness: the amended idempotence applied at `"hello world"`. -/
theorem C3_sanitize_idempotent_on_clean_witness :
    sanitizeInput (sanitizeInput witnessSanitizeInput) = sanitizeInput witnessSanitizeInput :=
  C3_sanitize_idempotent_on_clean witnessSanitizeInput (by decide) (by decide) (by decide)

/-! ## Session-guard theorems -/

/-- C5: with a configured provider the guard follows the decision table
with first-match-wins ordering — protected path without a resolved user
redirects to the login path; authOnly path with a resolved user redirects
to the protected landing path; in every other case the request is allowed
through with the pass-through response exactly as constructed. -/
theorem C5_guard_decision_table (env : GuardEnv) (req : GuardRequest)
    (provider : ProviderBehavior) (hconf : isConfigured env = true) :
    (isProtectedPath req.pathname = true → resolvedUser provider = none →
      updateSession env req provider =
        { kind := ResponseKind.redirect loginPath, cookies := [] }) ∧
    (isAuthPath req.pathname = true → (resolvedUser provider).isSome = true →
      updateSession env req provider =
        { kind := ResponseKind.redirect dashboardPath, cookies := [] }) ∧
    (¬(isProtectedPath req.pathname = true ∧ resolvedUser provider = none) →
      ¬(isAuthPath req.pathname = true ∧ (resolvedUser provider).isSome = true) →
      updateSession env req provider =
        { kind := ResponseKind.next, cookies := provider.cookiesToSet }) := by
  refine ⟨?_, ?_, ?_⟩
  · intro hp hu
    simp [updateSession, hconf, hp, hu]
  · intro ha hu
    have hn : (resolvedUser provider).isNone = false := by
      cases h : resolvedUser provider <;> simp_all
    simp [updateSession, hconf, ha, hu, hn]
  · intro h1 h2
    cases hp : isProtectedPath req.pathname <;>
      cases ha : isAuthPath req.pathname <;>
      cases hres : resolvedUser provider <;>
      simp_all [updateSession, hconf]

/-- C5 witness: a protected path with no resolved user redirects to login
at a concrete input. -/
theorem C5_guard_decision_table_witness :
    updateSession envConfigured { pathname := dashboardPath } providerMutatesNoUser =
      { kind := ResponseKind.redirect loginPath, cookies := [] } :=
  (C5_guard_decision_table envConfigured { pathname := dashboardPath }
    providerMutatesNoUser (by decide)).1 (by decide) (by decide)

/-- C9: with an unconfigured provider client the guard redirects every
path starting with a protected prefix to the login path and passes every
other path through. -/
theorem C9_unconfigured_guard (env : GuardEnv) (req : GuardRequest)
    (provider : ProviderBehavior) (hconf : isConfigured env = false) :
    (isProtectedPath req.pathname = true →
      updateSession env req provider =
        { kind := ResponseKind.redirect loginPath, cookies := [] }) ∧
    (isProtectedPath req.pathname = false →
      updateSession env req provider = { kind := ResponseKind.next, cookies := [] }) := by
  constructor <;> intro hp <;> simp [updateSession, hconf, hp]

/-- C9 witness at concrete inputs: with the URL variable unset,
`/dashboard` redirects to login and `/` passes through. -/
theorem C9_unconfigured_guard_witness :
    updateSession envUnconfigured { pathname := dashboardPath } providerMutatesNoUser =
      { kind := ResponseKind.redirect loginPath, cookies := [] } ∧
    updateSession envUnconfigured { pathname := rootPath } providerMutatesNoUser =
      { kind := ResponseKind.next, cookies := [] } :=
  ⟨(C9_unconfigured_guard envUnconfigured { pathname := dashboardPath }
      providerMutatesNoUser (by decide)).1 (by decide),
   (C9_unconfigured_guard envUnconfigured { pathname := rootPath }
      providerMutatesNoUser (by decide)).2 (by decide)⟩

/-- C10: the guard's authOnly prefixes are exactly `/login`, `/signup`,
`/forgot-password` and `/reset-password`; hence any request whose path
starts with `/reset-password` while a user resolves is redirected to
`/dashboard`. -/
theorem C10_reset_password_authonly (env : GuardEnv) (req : GuardRequest)
    (provider : ProviderBehavior) (hconf : isConfigured env = true)
    (hpath : pathStartsWith req.pathname resetPasswordPath = true)
    (huser : (resolvedUser provider).isSome = true) :
    authRoutes = [loginPath, signupPath, forgotPasswordPath, resetPasswordPath] ∧
    updateSession env req provider =
      { kind := ResponseKind.redirect dashboardPath, cookies := [] } := by
  refine ⟨rfl, ?_⟩
  have ha : isAuthPath req.pathname = true := by
    simp only [isAuthPath, authRoutes, List.any_cons, List.any_nil, Bool.or_eq_true]
    exact Or.inr (Or.inr (Or.inr (Or.inl hpath)))
  have hn : (resolvedUser provider).isNone = false := by
    cases h : resolvedUser provider <;> simp_all
  simp [updateSession, hconf, ha, hn, huser]

/-- C10 witness: an authenticated request to `/reset-password` is
redirected to `/dashboard`. -/
theorem C10_reset_password_authonly_witness :
    updateSession envConfigured { pathname := resetPasswordPath } providerMutatesWithUser =
      { kind := ResponseKind.redirect dashboardPath, cookies := [] } :=
  (C10_reset_password_authonly envConfigured { pathname := resetPasswordPath }
    providerMutatesWithUser (by decide) (by decide) (by decide)).2

/-- C7: a user-lookup failure — a returned provider error as well as a
thrown exception — is handled identically to a clean "no user" result,
and every branch of the guard terminates in a pass-through or a
redirect. -/
theorem C7_lookup_failure_degrades (env : GuardEnv) (req : GuardRequest)
    (cookies : List Cookie) (m : List Char) (hconf : isConfigured env = true) :
    updateSession env req { cookiesToSet := cookies, outcome := GetUserOutcome.err m } =
      updateSession env req { cookiesToSet := cookies, outcome := GetUserOutcome.ok none } ∧
    updateSession env req { cookiesToSet := cookies, outcome := GetUserOutcome.exn m } =
      updateSession env req { cookiesToSet := cookies, outcome := GetUserOutcome.ok none } ∧
    (∀ (env' : GuardEnv) (req' : GuardRequest) (provider : ProviderBehavior),
      (updateSession env' req' provider).kind = ResponseKind.next ∨
      ∃ target, (updateSession env' req' provider).kind = ResponseKind.redirect target) := by
  refine ⟨rfl, rfl, ?_⟩
  intro env' req' provider
  unfold updateSession
  split
  · split
    · exact Or.inr ⟨loginPath, rfl⟩
    · exact Or.inl rfl
  · dsimp only
    split
    · exact Or.inr ⟨loginPath, rfl⟩
    · split
      · exact Or.inr ⟨dashboardPath, rfl⟩
      · exact Or.inl rfl

/-- C7 witness: at a concrete protected request, a throwing lookup gives
the same response as a clean "no user" lookup. -/
theorem C7_lookup_failure_degrades_witness :
    updateSession envConfigured { pathname := dashboardPath }
        { cookiesToSet := [], outcome := GetUserOutcome.exn cexTransportMsg } =
      updateSession envConfigured { pathname := dashboardPath }
        { cookiesToSet := [], outcome := GetUserOutcome.ok none } :=
  (C7_lookup_failure_degrades envConfigured { pathname := dashboardPath }
    [] cexTransportMsg (by decide)).2.1

/-- C1 (code-bug evidence): with a configured provider, both redirect
branches return a fresh redirect response whose cookie list is empty even
though the provider requested a cookie mutation via `setAll` during the
lookup — only the pass-through branch carries the mutation, contradicting
the invariant stated by the spec (and by the source's own comment, which
demands returning the pass-through response or copying its cookies). -/
theorem C1_redirect_drops_cookie_mutations :
    providerMutatesNoUser.cookiesToSet = [{ name := sbCookieName, value := sbCookieValue }] ∧
    providerMutatesWithUser.cookiesToSet = [{ name := sbCookieName, value := sbCookieValue }] ∧
    updateSession envConfigured { pathname := dashboardPath } providerMutatesNoUser =
      { kind := ResponseKind.redirect loginPath, cookies := [] } ∧
    updateSession envConfigured { pathname := loginPath } providerMutatesWithUser =
      { kind := ResponseKind.redirect dashboardPath, cookies := [] } ∧
    updateSession envConfigured { pathname := rootPath } providerMutatesNoUser =
      { kind := ResponseKind.next,
        cookies := [{ name := sbCookieName, value := sbCookieValue }] } := by
  refine ⟨rfl, rfl, rfl, rfl, rfl⟩

/-! ## Auth-service theorems -/

/-- C6: `resetPasswordRequest` answers a non-existent email (a provider
error mentioning `not found`) with the same generic success as the
existing-email case, while every other returned provider error is
surfaced as the mapped message. -/
theorem C6_reset_request_no_enumeration :
    resetPasswordRequest ResetEmailOutcome.ok = none ∧
    (∀ m : List Char, jsIncludes m patNotFound = true →
      resetPasswordRequest (ResetEmailOutcome.err m) = resetPasswordRequest ResetEmailOutcome.ok) ∧
    (∀ m : List Char, jsIncludes m patNotFound = false →
      resetPasswordRequest (ResetEmailOutcome.err m) = some (mapAuthError m)) := by
  refine ⟨rfl, ?_, ?_⟩ <;> intro m h <;> simp [resetPasswordRequest, h]

/-- C6 witness: a `not found` error is indistinguishable from success; a
transport failure surfaces the mapped server-error message. -/
theorem C6_reset_request_no_enumeration_witness :
    resetPasswordRequest (ResetEmailOutcome.err cexNotFoundMsg) =
      resetPasswordRequest ResetEmailOutcome.ok ∧
    resetPasswordRequest (ResetEmailOutcome.err cexTransportMsg) =
      some (mapAuthError cexTransportMsg) :=
  ⟨C6_reset_request_no_enumeration.2.1 cexNotFoundMsg (by decide),
   C6_reset_request_no_enumeration.2.2 cexTransportMsg (by decide)⟩

/-- C2 counterexample: on the raw text `weak password` — which mentions
the lowercase word `password` together with `weak` — the source mapper
returns the generic server-error message, not the weak-password message
the claim's rule chain prescribes (the source tests for the capitalised
substring `Password`). -/
theorem C2_mapper_weak_rule_counterexample :
    mapAuthError cexWeakPassword = msgServerError ∧
    mapProviderErrorSpec cexWeakPassword = msgWeakPassword ∧
    mapAuthError cexWeakPassword ≠ mapProviderErrorSpec cexWeakPassword := by
  refine ⟨rfl, rfl, ?_⟩
  decide

/-- C2 (amended): with the weak-password rule reading the capitalised
substring `Password` (together with `weak`), the mapper agrees with the
claim's first-match rule chain on every input, and always returns one of
the fixed eight messages. -/
theorem C2_mapper_first_match (m : List Char) :
    mapAuthError m = mapProviderErrorSpecAmended m ∧ mapAuthError m ∈ mapperMessages := by
  refine ⟨rfl, ?_⟩
  unfold mapAuthError mapperMessages
  repeat' split
  all_goals simp

/-! ## Validator theorems -/

theorem validateEmail_inv (e : List Char) : validationInvariant (validateEmail e) := by
  unfold validationInvariant validateEmail
  split
  · rfl
  · split <;> rfl

theorem mkPasswordResult_inv (reqs : List String) :
    validationInvariant
      (if reqs.isEmpty then { isValid := true, errors := [] }
       else
        { isValid := false,
          errors :=
            [(passwordKey, msgPasswordMustContain ++ String.intercalate commaSep reqs)] }) := by
  cases reqs <;> rfl

theorem validatePassword_inv (p : List Char) : validationInvariant (validatePassword p) := by
  unfold validatePassword
  split
  · rfl
  · exact mkPasswordResult_inv _

/-- C8: every `ValidationResult` produced by the five validators
satisfies `isValid = (errors is empty)`. -/
theorem C8_validation_result_invariant :
    (∀ e, validationInvariant (validateEmail e)) ∧
    (∀ p, validationInvariant (validatePassword p)) ∧
    (∀ d, validationInvariant (validateSignUpForm d)) ∧
    (∀ d, validationInvariant (validateLoginForm d)) ∧
    (∀ d, validationInvariant (validateResetPasswordForm d)) :=
  ⟨validateEmail_inv, validatePassword_inv, fun _ => rfl, fun _ => rfl, fun _ => rfl⟩

/-- C4 counterexample: `Abcdef1:` is non-blank, 8 characters long, has an
uppercase letter, a lowercase letter and a digit, and contains no
character of the claim's special set (which omits `':'`) — so the claim
predicts an invalid result mentioning `one special character` — yet the
source accepts it with an empty error map, because the source's regex
class does contain `':'`. -/
theorem C4_claim_special_set_counterexample :
    (cexColonPassword.isEmpty || (jsTrim cexColonPassword).isEmpty) = false ∧
    ¬cexColonPassword.length < 8 ∧
    hasUppercase cexColonPassword = true ∧
    hasLowercase cexColonPassword = true ∧
    hasDigit cexColonPassword = true ∧
    hasSpecialCharClaim cexColonPassword = false ∧
    validatePassword cexColonPassword = { isValid := true, errors := [] } := by
  decide

/-- C4 (amended): with `':'` included in the special set — as in the
source regex class — the special-character rule is satisfied exactly when
the password contains a character of that set: a non-blank password of
length ≥ 8 with an uppercase letter, a lowercase letter and a digit is
rejected with the `one special character` message exactly when it lacks
such a character, and accepted with an empty error map otherwise. -/
theorem C4_special_char_rule (p : List Char)
    (hne : (p.isEmpty || (jsTrim p).isEmpty) = false)
    (hlen : ¬p.length < 8)
    (hu : hasUppercase p = true) (hlo : hasLowercase p = true) (hd : hasDigit p = true) :
    (validatePassword p).isValid = hasSpecialChar p ∧
    (hasSpecialChar p = false →
      validatePassword p =
        { isValid := false,
          errors := [(passwordKey, msgPasswordMustContain ++ fragSpecial)] } ∧
      fragSpecial.data <:+: (msgPasswordMustContain ++ fragSpecial).data) ∧
    (hasSpecialChar p = true → validatePassword p = { isValid := true, errors := [] }) := by
  have hmsg : msgPasswordMustContain ++ String.intercalate commaSep [fragSpecial] =
      msgPasswordMustContain ++ fragSpecial := rfl
  cases hsp : hasSpecialChar p with
  | false =>
    have hvp : validatePassword p =
        { isValid := false,
          errors := [(passwordKey, msgPasswordMustContain ++ fragSpecial)] } := by
      simp [validatePassword, hne, hlen, hu, hlo, hd, hsp, hmsg]
    refine ⟨by simp [hvp, hsp], fun _ => ⟨hvp, by decide⟩, fun h => by simp [hsp] at h⟩
  | true =>
    have hvp : validatePassword p = { isValid := true, errors := [] } := by
      simp [validatePassword, hne, hlen, hu, hlo, hd, hsp]
    refine ⟨by simp [hvp, hsp], fun h => by simp [hsp] at h, fun _ => hvp⟩

/-- C4 witness: the amended rule applied at `Abcdef1:`, whose `':'`
satisfies the source's special-character class. -/
theorem C4_special_char_rule_witness :
    validatePassword cexColonPassword = { isValid := true, errors := [] } :=
  (C4_special_char_rule cexColonPassword (by decide) (by decide) (by decide)
    (by decide) (by decide)).2.2 (by decide)

end CodInspect
